/-
Verification of the stream-dispatch pipeline in `zipper/dispatch.go`
(repository Sayanta66/yomo).

The Go source is shallowly embedded: each Go function becomes a Lean
function over explicit inputs, and its side effects (writes to the `next`
channel, invocations of a replica's `cancel` capability, sub-stream
opens/closes, atomic counter operations, launched send units) are recorded
in an explicit effect record.  External collaborators (QUIC transport,
frame codec, tracing) are modelled by their observable outcomes: a
transport stream is the sequence of results `core.ParseFrame` yields on
it, a session is described by whether `OpenUniStream` succeeds and whether
the subsequent `Write` succeeds, and the tracing hooks are no-ops (per the
spec they must not change functional behavior).
-/
import Mathlib

set_option autoImplicit false

namespace Zipper

/-! ## Data model

`frame.DataFrame` carries a transaction id and a payload ("carriage") of
raw bytes; the core treats both as opaque. -/

/-- A data frame: transaction id (used only for logging) and payload bytes. -/
structure DataFrame where
  transactionID : String
  carriage : List Nat
  deriving DecidableEq, Repr

/-- Tag of a data frame (`frame.TagOfDataFrame`, defined outside this file's
source; the dispatch code only ever compares a frame's type against it). -/
def TagOfDataFrame : Nat := 0x3F

/-- A parsed frame.  The Go code tests `f.Type() == frame.TagOfDataFrame` and
then type-asserts `f.(*frame.DataFrame)`; under the codec invariant that
exactly the `*frame.DataFrame` values carry `TagOfDataFrame`, that pair of
operations is modelled by matching on the constructor. `ctrlF` stands for
any non-data frame, carrying only its type tag. -/
inductive Frame where
  | dataF (d : DataFrame)
  | ctrlF (tag : Nat)
  deriving DecidableEq, Repr

/-- Type tag of a frame (`Frame.Type()` in the Go code). -/
def Frame.Type : Frame → Nat
  | .dataF _ => TagOfDataFrame
  | .ctrlF t => t

/-- The type assertion `f.(*frame.DataFrame)`, total via `Option`. -/
def Frame.asData : Frame → Option DataFrame
  | .dataF d => some d
  | .ctrlF _ => none

/-- One outcome of `core.ParseFrame` on a transport stream: either a frame
parsed successfully or a parse error. A transport stream is modelled as the
finite sequence of outcomes it yields, in order. -/
inductive ParseEvent where
  | ok (f : Frame)
  | errEv
  deriving DecidableEq, Repr

/-- Frames parsed before the first parse error: once a parse fails the read
loops below never touch the stream again, so only this prefix matters. -/
def parsedFrames : List ParseEvent → List Frame
  | [] => []
  | .errEv :: _ => []
  | .ok f :: rest => f :: parsedFrames rest

/-- Whether the event sequence contains a parse error (reachable by the
reader, i.e. in any position, since parses before it all succeed). -/
def hasParseError : List ParseEvent → Bool
  | [] => false
  | .errEv :: _ => true
  | .ok _ :: rest => hasParseError rest

/-! ## Frame Source Reader (`readDataFromSource`, dispatch.go lines 28-59)

The goroutine loops: parse one frame; on error, `break LOOP` and run the
deferred `close(next)`; a data frame is forwarded on `next`; any other
frame is only logged.  The `ctx.Done()` branch of its `select` is not
exercised here (cancellation timing is outside this embedding); the run
below is the uncancelled execution over a given sequence of parse
outcomes.  Result: the forwarded data frames in order, and the number of
times the output channel was closed (the deferred close runs exactly when
the goroutine exits, i.e. when the loop breaks on a parse error). -/

/-- Uncancelled run of the `readDataFromSource` goroutine over the parse
outcomes of its stream: forwarded data frames in order, and close count. -/
def readDataFromSource : List ParseEvent → List DataFrame × Nat
  | [] => ([], 0)
  | .errEv :: _ => ([], 1)
  | .ok f :: rest =>
    match f.asData with
    | some d => ((readDataFromSource rest).1.cons d, (readDataFromSource rest).2)
    | none => readDataFromSource rest

/-! ## Reply Read Unit (`readDataFromStreamFn`, dispatch.go lines 194-240)

The Go function loops: parse a frame from the reply sub-stream; on parse
error `return`; on a non-data frame it logs and `continue`s the loop (it
does NOT return); on a data frame it forwards it on `next` and returns.
Result: the frame forwarded, if any, and the number of `ParseFrame` calls
made. -/

/-- Uncancelled run of `readDataFromStreamFn` over the parse outcomes of
its reply sub-stream: the forwarded frame (at most one) and the number of
frames parsed. -/
def readDataFromStreamFn : List ParseEvent → Option DataFrame × Nat
  | [] => (none, 0)
  | .errEv :: _ => (none, 1)
  | .ok f :: rest =>
    match f.asData with
    | some d => (some d, 1)
    | none => ((readDataFromStreamFn rest).1, (readDataFromStreamFn rest).2 + 1)

/-! ## Replicas and the send path (`sendDataToStreamFn`, dispatch.go lines 118-155)

A replica (one entry of the list a `GetStreamFunc` returns) is a possibly
nil `quic.Session` plus a `CancelFunc`.  A session's observable behavior on
one send is: `OpenUniStream` fails, or it succeeds and the subsequent
`Write` of the encoded frame succeeds or fails.  The cancellation
capability is identified by a number so invocations can be counted. -/

/-- Behavior of a non-nil `quic.Session` on one send attempt. -/
inductive SessionB where
  | openFail
  | openOk (writeOk : Bool)
  deriving DecidableEq, Repr

/-- One replica for a stage: session handle (`none` = nil) and the identity
of its cancellation capability. -/
structure Replica where
  session : Option SessionB
  cancelId : Nat
  deriving DecidableEq, Repr

/-- Observable effects of one call into the send path / dispatcher:
frames written to the `next` channel (in order), cancellation capabilities
invoked (in order), number of `OpenUniStream` attempts, number of
`stream.Close()` calls on the opened sub-stream, number of atomic
operations on the rotation counter, and the indices of the replicas that a
`sendDataToStreamFn` unit was launched for. -/
structure Effect where
  forwarded : List DataFrame
  cancels : List Nat
  openAttempts : Nat
  streamCloses : Nat
  counterOps : Nat
  sends : List Nat
  deriving DecidableEq, Repr

/-- The effect-free run (nothing forwarded, nothing cancelled). -/
def Effect.empty : Effect := ⟨[], [], 0, 0, 0, []⟩

/-- Effects of `sendDataToStreamFn(name, session, cancel, data, next)`:
nil session: `next <- data; cancel(); return`.  `OpenUniStream` error:
`next <- data; cancel(); return`.  Otherwise `stream.Write(data.Encode())`
then unconditionally `stream.Close()`, and `cancel()` exactly when the
write returned an error (the data is not forwarded on that path).  The
tracing span is a no-op. -/
def sendDataToStreamFn (r : Replica) (data : DataFrame) : Effect :=
  match r.session with
  | none => ⟨[data], [r.cancelId], 0, 0, 0, []⟩
  | some .openFail => ⟨[data], [r.cancelId], 1, 0, 0, []⟩
  | some (.openOk writeOk) =>
    if writeOk then ⟨[], [], 1, 1, 0, []⟩ else ⟨[], [r.cancelId], 1, 1, 0, []⟩

/-! ## Round-Robin Dispatcher (`dispatchToStreamFn`, dispatch.go lines 92-115)

The Go function declares `var nextNum uint32` in its own body, so every
call observes `nextNum = 0`.  It queries the descriptor for the replica
list `funcs`; on an empty list it logs and returns (the item is dropped);
on a single replica it launches `sendDataToStreamFn` for `funcs[0]`
without touching the counter; otherwise it runs
`n := atomic.AddUint32(&nextNum, 1)` and launches the send for
`funcs[(int(n)-1) % len]` (Go `%` truncates toward zero, `Int.tmod`).
The aggregate effect of the call includes the effect of the launched send
unit. -/

/-- Effects of one call `dispatchToStreamFn(sfn, data, next)` where `sfn`
returned the replica list `funcs`. -/
def dispatchToStreamFn (funcs : List Replica) (data : DataFrame) : Effect :=
  -- var nextNum uint32  (function-local, hence 0 at every entry)
  let nextNum : Nat := 0
  match funcs with
  | [] => Effect.empty
  | [r] => { sendDataToStreamFn r data with sends := [0] }
  | _ :: _ :: _ =>
    let k : Nat := funcs.length
    let n : Nat := (nextNum + 1) % 2 ^ 32
    let i : Nat := (Int.tmod ((n : Int) - 1) (k : Int)).toNat
    match funcs[i]? with
    | some r => { sendDataToStreamFn r data with counterOps := 1, sends := [i] }
    | none => { Effect.empty with counterOps := 1 }  -- index out of range: unreachable (i = 0 < k)

/-- Dispatching a sequence of items through a freshly-initialized
dispatcher: the send fan-out of `pipeStreamFn` calls `dispatchToStreamFn`
once per upstream item, against the same descriptor. -/
def dispatchRunSeq (funcs : List Replica) (items : List DataFrame) : List Effect :=
  items.map (dispatchToStreamFn funcs)

/-! ## Session Directory and Reply Receiver
(`receiveResponseFromStreamFn`, dispatch.go lines 158-191)

The function resolves the stage's entry with
`newStreamFuncSessionCache.LoadOrStore(name, make(chan quic.Session, 5))`
and then loops on the obtained queue: a closed queue ends the loop, a nil
session is skipped (`continue`), and for every non-nil session an accept
loop is spawned.

Modelled from the spec: `newStreamFuncSessionCache` itself is declared
outside this source file; per the spec's Session Directory contract it is
a process-wide registry with load-or-create semantics mapping a stage name
to a bounded session queue, safe for concurrent access, whose entries
persist for the process lifetime.  It is modelled as an association list
of stage name to queue, with `loadOrStore` following the documented
semantics of `sync.Map.LoadOrStore`: return the existing entry if present,
otherwise store and return the given fresh one. -/

/-- A session queue: its identity (so distinct `make(chan ...)` results are
distinguishable) and its capacity. -/
structure SessionQueue where
  id : Nat
  capacity : Nat
  deriving DecidableEq, Repr

/-- The queue `receiveResponseFromStreamFn` passes to `LoadOrStore`:
`make(chan quic.Session, 5)`. -/
def newSessionQueue (fresh : Nat) : SessionQueue := ⟨fresh, 5⟩

/-- Modelled from the spec: the process-wide Session Directory
(`newStreamFuncSessionCache`), a registry mapping stage names to session
queues. -/
structure SessionDirectory where
  entries : List (String × SessionQueue)
  deriving DecidableEq, Repr

/-- Load-or-create (`sync.Map.LoadOrStore`): the existing queue for `name`
if present, else store `q` for `name` and return it. -/
def loadOrStore (d : SessionDirectory) (name : String) (q : SessionQueue) :
    SessionQueue × SessionDirectory :=
  match d.entries.find? (fun e => e.1 == name) with
  | some e => (e.2, d)
  | none => (q, ⟨d.entries ++ [(name, q)]⟩)

/-- The directory access `receiveResponseFromStreamFn` performs on entry:
`newStreamFuncSessionCache.LoadOrStore(name, make(chan quic.Session, 5))`. -/
def receiveGetQueue (d : SessionDirectory) (name : String) (fresh : Nat) :
    SessionQueue × SessionDirectory :=
  loadOrStore d name (newSessionQueue fresh)

/-- One receive on the stage's session queue, as observed by the loop of
`receiveResponseFromStreamFn`: a session value (possibly nil), or the
queue found closed. -/
inductive QueueEvent where
  | sess (s : Option Nat)
  | closedEv
  deriving DecidableEq, Repr

/-- The receive loop of `receiveResponseFromStreamFn` over the sequence of
queue events it observes: returns the sessions an accept loop is spawned
for.  A closed queue (`ok == false`) ends the loop; a nil session is
skipped (`continue`); a non-nil session gets an accept goroutine. -/
def receiveResponseFromStreamFn : List QueueEvent → List Nat
  | [] => []
  | .closedEv :: _ => []
  | .sess none :: rest => receiveResponseFromStreamFn rest
  | .sess (some s) :: rest => s :: receiveResponseFromStreamFn rest

/-! ## Theorems -/

/-- C7: the Frame Source Reader forwards onto its output channel exactly
the parsed frames that are data frames, in parse order; non-data frames
are dropped; and the read loop terminates at the first parse failure with
the output channel closed exactly once (frames after a parse error are
never reached; without a parse error the loop is still running and the
channel not yet closed). -/
theorem readDataFromSource_forwards_data_in_order (evs : List ParseEvent) :
    (readDataFromSource evs).1 = (parsedFrames evs).filterMap Frame.asData ∧
    (readDataFromSource evs).2 = (if hasParseError evs then 1 else 0) := by
  induction evs with
  | nil => simp [readDataFromSource, parsedFrames, hasParseError]
  | cons e rest ih =>
    cases e with
    | errEv => simp [readDataFromSource, parsedFrames, hasParseError]
    | ok f =>
      cases f with
      | dataF d =>
        simp [readDataFromSource, parsedFrames, hasParseError, Frame.asData, ih.1, ih.2]
      | ctrlF t =>
        simp [readDataFromSource, parsedFrames, hasParseError, Frame.asData, ih.1, ih.2]

/-- C6 counterexample: on a reply sub-stream whose parsed frames are a
control frame followed by a data frame, the read unit parses two frames
and forwards the later data frame — refuting the claim that on a non-data
frame it exits without forwarding and without reading further frames from
that sub-stream (the Go code executes `continue`, not `return`, on a
non-data frame). -/
theorem readDataFromStreamFn_reads_past_nondata :
    ¬ ((readDataFromStreamFn [.ok (.ctrlF 1), .ok (.dataF ⟨"a", [1]⟩)]).2 = 1 ∧
       (readDataFromStreamFn [.ok (.ctrlF 1), .ok (.dataF ⟨"a", [1]⟩)]).1 = none) := by
  decide

/-- C6 (amended): the reply read unit forwards at most one frame: it skips
non-data frames and keeps reading, forwards the first data frame parsed
before the first parse failure (if any) and then exits; on a parse failure
it exits without forwarding. -/
theorem readDataFromStreamFn_first_data (evs : List ParseEvent) :
    (readDataFromStreamFn evs).1 = ((parsedFrames evs).filterMap Frame.asData).head? := by
  induction evs with
  | nil => simp [readDataFromStreamFn, parsedFrames]
  | cons e rest ih =>
    cases e with
    | errEv => simp [readDataFromStreamFn, parsedFrames]
    | ok f =>
      cases f with
      | dataF d => simp [readDataFromStreamFn, parsedFrames, Frame.asData]
      | ctrlF t => simp [readDataFromStreamFn, parsedFrames, Frame.asData, ih]

/-- C1: the rotation counter `nextNum` is declared locally inside
`dispatchToStreamFn`, so it is 0 at every call; with two replicas the
items `a`, `b`, `c` are all dispatched to replica index 0, not in the
claimed round-robin order R0, R1, R0 (the function's own comment says it
dispatches "by Round Robin", which the local declaration defeats). -/
theorem dispatchToStreamFn_rotation_resets_each_call :
    (dispatchRunSeq [⟨some (.openOk true), 0⟩, ⟨some (.openOk true), 1⟩]
        [⟨"a", [97]⟩, ⟨"b", [98]⟩, ⟨"c", [99]⟩]).map Effect.sends = [[0], [0], [0]] ∧
    [[0], [0], [0]] ≠ [[0], [1], [0]] := by
  decide

/-- C2: when the replica's session is nil, or `OpenUniStream` fails, the
send path forwards the original item unchanged onto the output channel
exactly once, invokes the replica's cancellation capability exactly once,
and attempts at most one open (no retry). -/
theorem sendDataToStreamFn_passthrough_cancel (r : Replica) (data : DataFrame)
    (h : r.session = none ∨ r.session = some .openFail) :
    (sendDataToStreamFn r data).forwarded = [data] ∧
    (sendDataToStreamFn r data).cancels = [r.cancelId] ∧
    (sendDataToStreamFn r data).openAttempts ≤ 1 := by
  rcases h with h | h <;> simp [sendDataToStreamFn, h]

theorem sendDataToStreamFn_passthrough_cancel_witness :
    ((⟨none, 3⟩ : Replica).session = none ∨
        (⟨none, 3⟩ : Replica).session = some .openFail) ∧
    ((sendDataToStreamFn ⟨none, 3⟩ ⟨"a", [1]⟩).forwarded = [⟨"a", [1]⟩] ∧
     (sendDataToStreamFn ⟨none, 3⟩ ⟨"a", [1]⟩).cancels = [3] ∧
     (sendDataToStreamFn ⟨none, 3⟩ ⟨"a", [1]⟩).openAttempts ≤ 1) :=
  ⟨Or.inl rfl, sendDataToStreamFn_passthrough_cancel ⟨none, 3⟩ ⟨"a", [1]⟩ (Or.inl rfl)⟩

/-- C3: when the sub-stream write fails after a successful open, the send
path invokes the replica's cancellation capability exactly once and the
item is not forwarded to the output channel. -/
theorem sendDataToStreamFn_writeFail_drop_cancel (r : Replica) (data : DataFrame)
    (h : r.session = some (.openOk false)) :
    (sendDataToStreamFn r data).cancels = [r.cancelId] ∧
    (sendDataToStreamFn r data).forwarded = [] := by
  simp [sendDataToStreamFn, h]

theorem sendDataToStreamFn_writeFail_drop_cancel_witness :
    (⟨some (.openOk false), 5⟩ : Replica).session = some (.openOk false) ∧
    ((sendDataToStreamFn ⟨some (.openOk false), 5⟩ ⟨"a", [1]⟩).cancels = [5] ∧
     (sendDataToStreamFn ⟨some (.openOk false), 5⟩ ⟨"a", [1]⟩).forwarded = []) :=
  ⟨rfl, sendDataToStreamFn_writeFail_drop_cancel ⟨some (.openOk false), 5⟩ ⟨"a", [1]⟩ rfl⟩

/-- C10: whenever `OpenUniStream` succeeds, the opened sub-stream is closed
exactly once before the send path returns, on the write-success and the
write-error path alike (`stream.Close()` runs unconditionally between the
write and the error check). -/
theorem sendDataToStreamFn_closes_stream_once (r : Replica) (data : DataFrame) (b : Bool)
    (h : r.session = some (.openOk b)) :
    (sendDataToStreamFn r data).streamCloses = 1 ∧
    (sendDataToStreamFn r data).openAttempts = 1 := by
  cases b <;> simp [sendDataToStreamFn, h]

theorem sendDataToStreamFn_closes_stream_once_witness :
    (⟨some (.openOk false), 2⟩ : Replica).session = some (.openOk false) ∧
    ((sendDataToStreamFn ⟨some (.openOk false), 2⟩ ⟨"a", []⟩).streamCloses = 1 ∧
     (sendDataToStreamFn ⟨some (.openOk false), 2⟩ ⟨"a", []⟩).openAttempts = 1) :=
  ⟨rfl, sendDataToStreamFn_closes_stream_once ⟨some (.openOk false), 2⟩ ⟨"a", []⟩ false rfl⟩

/-- C4: when the stage descriptor returns an empty replica list, the
dispatcher drops the item: nothing is forwarded to the output channel, no
send unit is launched, no sub-stream open is attempted, no cancellation is
invoked, and the rotation counter is untouched (the function returns
nothing, so no error is surfaced upstream). -/
theorem dispatchToStreamFn_noReplicas_drop (data : DataFrame) :
    (dispatchToStreamFn [] data).forwarded = [] ∧
    (dispatchToStreamFn [] data).sends = [] ∧
    (dispatchToStreamFn [] data).openAttempts = 0 ∧
    (dispatchToStreamFn [] data).cancels = [] ∧
    (dispatchToStreamFn [] data).counterOps = 0 := by
  simp [dispatchToStreamFn, Effect.empty]

/-- C5: when the stage descriptor returns exactly one replica, the
dispatcher launches exactly one send unit, for that replica with that
item, and performs no operation on the rotation counter. -/
theorem dispatchToStreamFn_singleReplica_direct (r : Replica) (data : DataFrame) :
    dispatchToStreamFn [r] data = { sendDataToStreamFn r data with sends := [0] } ∧
    (dispatchToStreamFn [r] data).counterOps = 0 := by
  refine ⟨rfl, ?_⟩
  rcases r with ⟨s, c⟩
  rcases s with _ | sb
  · rfl
  · cases sb with
    | openFail => rfl
    | openOk w => cases w <;> rfl

/-- C9: the Reply Receiver resolves its stage's Session Directory entry by
load-or-create: the queue it passes to the registry has capacity 5, a
second resolution for the same stage name returns the very same queue (so
there is one queue per stage name for the registry's lifetime, given every
existing entry has capacity 5), and its receive loop skips a nil session
and ends on a closed queue. -/
theorem sessionDirectory_receive_loop_spec (d : SessionDirectory) (name : String)
    (i j : Nat) (evs : List QueueEvent)
    (h : ∀ e ∈ d.entries, e.2.capacity = 5) :
    (receiveGetQueue d name i).1.capacity = 5 ∧
    (receiveGetQueue (receiveGetQueue d name i).2 name j).1 = (receiveGetQueue d name i).1 ∧
    receiveResponseFromStreamFn (.sess none :: evs) = receiveResponseFromStreamFn evs ∧
    receiveResponseFromStreamFn (.closedEv :: evs) = [] := by
  refine ⟨?_, ?_, rfl, rfl⟩
  · unfold receiveGetQueue loadOrStore
    cases hf : d.entries.find? (fun e => e.1 == name) with
    | none => simp [newSessionQueue]
    | some e =>
      have hmem := List.mem_of_find?_eq_some hf
      simpa using h e hmem
  · unfold receiveGetQueue loadOrStore
    cases hf : d.entries.find? (fun e => e.1 == name) with
    | some e => simp [hf]
    | none =>
      have hsingle : ((d.entries ++ [(name, newSessionQueue i)]).find?
          (fun e => e.1 == name)) = some (name, newSessionQueue i) := by
        rw [List.find?_append, hf]
        simp [List.find?]
      simp [hf, hsingle]

theorem sessionDirectory_receive_loop_spec_witness :
    (∀ e ∈ (⟨[]⟩ : SessionDirectory).entries, e.2.capacity = 5) ∧
    ((receiveGetQueue ⟨[]⟩ "echo" 0).1.capacity = 5 ∧
     (receiveGetQueue (receiveGetQueue ⟨[]⟩ "echo" 0).2 "echo" 1).1 =
        (receiveGetQueue ⟨[]⟩ "echo" 0).1 ∧
     receiveResponseFromStreamFn [.sess none] = receiveResponseFromStreamFn [] ∧
     receiveResponseFromStreamFn [.closedEv] = []) :=
  ⟨by simp, sessionDirectory_receive_loop_spec ⟨[]⟩ "echo" 0 1 [] (by simp)⟩

end Zipper
